import Mathlib

/-!
Verification of the PxOsdUtilRefiner refinement driver and patch-parameter
decoder (src/opensubdiv/osdutil/refiner.cpp), shallowly embedded in Lean 4.

Machine floats in the decoder operate on dyadic rationals that are exactly
representable at the depths considered, so float arithmetic is modelled by
exact rational arithmetic over ℚ.
-/

/-- Modelled from the spec: the packed patch parameter bit field
`FarPatchParam::BitField` (declared in far/patchParam.h, outside the
provided source): a plain record { rotation in {0,1,2,3}, subDomainU,
subDomainV, subDomainDepth }. -/
structure BitField where
  rotation : Nat
  subDomainU : Nat
  subDomainV : Nat
  subDomainDepth : Nat
  deriving DecidableEq, Inhabited

/-- Modelled from the spec: accessor for the rotation code. -/
def BitField.GetRotation (bf : BitField) : Nat := bf.rotation

/-- Modelled from the spec: accessor for the sub-domain origin U coordinate. -/
def BitField.GetU (bf : BitField) : Nat := bf.subDomainU

/-- Modelled from the spec: accessor for the sub-domain origin V coordinate. -/
def BitField.GetV (bf : BitField) : Nat := bf.subDomainV

/-- Modelled from the spec: the sub-domain fraction `f = 1/2^subDomainDepth`. -/
def BitField.GetParamFraction (bf : BitField) : ℚ := 1 / 2 ^ bf.subDomainDepth

/-- Embeds `_InverseNormalize` (refiner.cpp lines 205-214): inverse of
`FarPatchParam::BitField::Normalize`, mapping a patch-local point into the
coarse face's unit square. -/
def _InverseNormalize (bf : BitField) (u v : ℚ) : ℚ × ℚ :=
  let frac := bf.GetParamFraction
  let pu := (bf.GetU : ℚ) * frac
  let pv := (bf.GetV : ℚ) * frac
  (u * frac + pu, v * frac + pv)

/-- Embeds `_InverseRotate` (refiner.cpp lines 217-226): inverse of
`FarPatchParam::BitField::Rotate`. The C++ switch has no default case, so a
rotation code outside {0,1,2,3} leaves the point unchanged. -/
def _InverseRotate (bf : BitField) (u v : ℚ) : ℚ × ℚ :=
  match bf.GetRotation with
  | 0 => (u, v)
  | 1 => (1 - v, u)
  | 2 => (1 - u, 1 - v)
  | 3 => (v, 1 - u)
  | _ + 4 => (u, v)

/-- The per-patch decoding performed in the body of `GetRefinedPtexUvs`
(refiner.cpp lines 272-280): corner (0,0) and corner (1,1) are each passed
through `_InverseRotate` then `_InverseNormalize`, producing (u0,v0,u1,v1). -/
def decodeCorners (bf : BitField) : ℚ × ℚ × ℚ × ℚ :=
  let p0 := _InverseRotate bf 0 0
  let q0 := _InverseNormalize bf p0.1 p0.2
  let p1 := _InverseRotate bf 1 1
  let q1 := _InverseNormalize bf p1.1 p1.2
  (q0.1, q0.2, q1.1, q1.2)

/-- One entry of the far patch parameter table: the owning coarse face index
and the packed bit field (refiner.cpp lines 268-270). -/
structure FarPatchParam where
  faceIndex : Nat
  bitField : BitField
  deriving DecidableEq, Inhabited

/-- One patch array of the far patch tables: global index of its first patch
and its patch count (external collaborator data). -/
structure PatchArray where
  patchIndex : Nat
  numPatches : Nat
  deriving DecidableEq, Inhabited

/-- The tables exposed by the far mesh built by the external subdivision
table builder (spec section 2, collaborator contract in section 6): per-level
patch arrays, the flat patch parameter table, the per-level flat face-vertex
index array (as returned by `GetFaceVertices(level)`), and per-level first
vertex offsets and vertex counts. -/
structure FarMeshData where
  parrays : List PatchArray
  patchParamTable : List FarPatchParam
  faceVertices : Nat → List Nat
  firstVertexOffset : Nat → Nat
  numVertices : Nat → Nat
  deriving Inhabited

/-- The refiner driver state: the member variables of `PxOsdUtilRefiner`
(refiner.cpp lines 42-53 and refiner.h). `_mesh` and `_farMesh` are owning
handles, `none` when not yet created. -/
structure PxOsdUtilRefiner where
  _adaptive : Bool
  _mesh : Option Nat
  _farMesh : Option FarMeshData
  _patchParamTable : Option (List FarPatchParam)
  _firstVertexOffset : Nat
  _firstPatchOffset : Nat
  _numRefinedVerts : Nat
  _numUniformQuads : Nat
  _numPatches : Nat
  _level : Nat
  _isRefined : Bool

/-- The default constructor (refiner.cpp lines 42-54): no mesh handles,
all counts zero, `_level = 1`, not refined. -/
def PxOsdUtilRefiner.init : PxOsdUtilRefiner :=
  { _adaptive := false
    _mesh := none
    _farMesh := none
    _patchParamTable := none
    _firstVertexOffset := 0
    _firstPatchOffset := 0
    _numRefinedVerts := 0
    _numUniformQuads := 0
    _numPatches := 0
    _level := 1
    _isRefined := false }

/-- Embeds `if (errorMessage) *errorMessage = msg;` — the message is written only
when the caller supplied a non-null error string pointer. -/
def setError (errorMessage : Option String) (msg : String) : Option String :=
  match errorMessage with
  | none => none
  | some _ => some msg

/-- Embeds `PxOsdUtilRefiner::Initialize` (refiner.cpp lines 57-167).  The external
collaborators are passed in as data: `topoValid` is the result of
`topology.IsValid`, `meshHandle`/`meshValid` stand for the freshly built
`PxOsdUtilMesh` and its validity, and `fm` is the far mesh produced by the
`FarMeshFactory`.  The member assignments happen in source order: `_mesh` is
stored before the validity check, `_farMesh` before the level check. -/
def PxOsdUtilRefiner.Initialize (r : PxOsdUtilRefiner) (topoValid : Bool)
    (meshHandle : Nat) (meshValid : Bool) (adaptive : Bool) (fm : FarMeshData) :
    Bool × PxOsdUtilRefiner :=
  if topoValid = false then
    (false, r)
  else
    let r1 := { r with _mesh := some meshHandle }
    if meshValid = false then
      (false, r1)
    else
      let r2 := { r1 with _farMesh := some fm }
      if r2._level > fm.parrays.length then
        (false, r2)
      else
        let parray := fm.parrays.getD (r2._level - 1) ⟨0, 0⟩
        (true,
         { r2 with
            _patchParamTable := some fm.patchParamTable
            _firstVertexOffset := fm.firstVertexOffset r2._level
            _firstPatchOffset := parray.patchIndex
            _numRefinedVerts := fm.numVertices r2._level
            _numUniformQuads :=
              if adaptive then r2._numUniformQuads else parray.numPatches
            _numPatches :=
              if adaptive then parray.numPatches else r2._numPatches
            _isRefined := true })

/-- Embeds `PxOsdUtilRefiner::GetRefinedQuads` (refiner.cpp lines 169-202).
`quads = none` models a null output-vector pointer; the returned triple is
(return value, contents of `*quads` after the call, contents of the error
string after the call). -/
def PxOsdUtilRefiner.GetRefinedQuads (r : PxOsdUtilRefiner)
    (quads : Option (List Int)) (errorMessage : Option String) :
    Bool × Option (List Int) × Option String :=
  if r._isRefined = false then
    (false, quads, setError errorMessage "GetQuads: Mesh has not been refined.")
  else if r._adaptive = true then
    (false, quads, setError errorMessage "GetQuads: only supports uniform subdivision.")
  else if quads.isNone || r._numUniformQuads == 0 then
    (false, quads, errorMessage)
  else
    let fm := r._farMesh.getD default
    let quadIndices := fm.faceVertices r._level
    let out := (List.range (r._numUniformQuads * 4)).map
      (fun i => (quadIndices.getD i 0 : Int) - (r._firstVertexOffset : Int))
    (true, some out, errorMessage)

/-- Embeds `PxOsdUtilRefiner::GetRefinedPtexUvs` (refiner.cpp lines 228-290).  The
output vectors are dereferenced unconditionally in the source, so they are
modelled as lists; the returned tuple is (return value, contents of
`*subfaceUvs`, contents of `*ptexIndices`, error string contents).  Note the
source sets the "Invalid size of patch array" message without returning, and
has no check on `_numUniformQuads`. -/
def PxOsdUtilRefiner.GetRefinedPtexUvs (r : PxOsdUtilRefiner)
    (subfaceUvs : List ℚ) (ptexIndices : List Int)
    (errorMessage : Option String) :
    Bool × List ℚ × List Int × Option String :=
  if r._isRefined = false then
    (false, subfaceUvs, ptexIndices,
     setError errorMessage "GetRefinedPtexUvs: Mesh has not been refined.")
  else if r._adaptive = true then
    (false, subfaceUvs, ptexIndices,
     setError errorMessage "GetRefinedPtexUvs: only supports uniform subdivision.")
  else
    let fm := r._farMesh.getD default
    let em1 :=
      if r._level > fm.parrays.length then
        setError errorMessage "Invalid size of patch array"
      else errorMessage
    let parray := fm.parrays.getD (r._level - 1) ⟨0, 0⟩
    let paramTable := fm.patchParamTable
    let uvs := (List.range r._numUniformQuads).flatMap
      (fun i =>
        let param := paramTable.getD (parray.patchIndex + i) default
        let c := decodeCorners param.bitField
        [c.1, c.2.1, c.2.2.1, c.2.2.2])
    let ids := (List.range r._numUniformQuads).map
      (fun i => ((paramTable.getD (parray.patchIndex + i) default).faceIndex : Int))
    (true, uvs, ids, em1)

/-- Modelled from the spec: the forward rotation the encoder applies to the
unit square's corners (the mathematical inverse of the decoder's
inverse-rotation table in section 4.3). -/
def forwardRotate (rot : Nat) (u v : ℚ) : ℚ × ℚ :=
  match rot with
  | 0 => (u, v)
  | 1 => (v, 1 - u)
  | 2 => (1 - u, 1 - v)
  | 3 => (1 - v, u)
  | _ + 4 => (u, v)

/-- Modelled from the spec: the forward encoding of a patch's UV rectangle
(section 8, round-trip property): rotate the unit square's corners (0,0) and
(1,1) by the rotation code, then scale-and-translate into the sub-domain at
(subDomainU, subDomainV) of size `1/2^subDomainDepth`. -/
def encodeCorners (bf : BitField) : ℚ × ℚ × ℚ × ℚ :=
  let f : ℚ := 1 / 2 ^ bf.subDomainDepth
  let p0 := forwardRotate bf.rotation 0 0
  let p1 := forwardRotate bf.rotation 1 1
  (p0.1 * f + bf.subDomainU * f, p0.2 * f + bf.subDomainV * f,
   p1.1 * f + bf.subDomainU * f, p1.2 * f + bf.subDomainV * f)

/-- Example far mesh: one patch array with a single level-1 quad whose patch
parameter has rotation 0 and depth 0. -/
def fmEx : FarMeshData :=
  { parrays := [⟨0, 1⟩]
    patchParamTable := [⟨0, ⟨0, 0, 0, 0⟩⟩]
    faceVertices := fun _ => [4, 5, 6, 7]
    firstVertexOffset := fun _ => 4
    numVertices := fun _ => 4 }

/-- Example refiner: successfully initialized in uniform mode over `fmEx`. -/
def rEx : PxOsdUtilRefiner :=
  (PxOsdUtilRefiner.init.Initialize true 0 true false fmEx).2

/-- Example far mesh whose single patch parameter carries the out-of-range
rotation code 4. -/
def fmRot4 : FarMeshData :=
  { parrays := [⟨0, 1⟩]
    patchParamTable := [⟨7, ⟨4, 0, 0, 0⟩⟩]
    faceVertices := fun _ => [0, 1, 2, 3]
    firstVertexOffset := fun _ => 0
    numVertices := fun _ => 4 }

/-- Example refiner: successfully initialized in uniform mode over `fmRot4`. -/
def rRot4 : PxOsdUtilRefiner :=
  (PxOsdUtilRefiner.init.Initialize true 0 true false fmRot4).2

/-- Example far mesh with one patch array holding zero patches. -/
def fmZero : FarMeshData :=
  { parrays := [⟨0, 0⟩]
    patchParamTable := []
    faceVertices := fun _ => []
    firstVertexOffset := fun _ => 0
    numVertices := fun _ => 0 }

/-- Example refiner: successfully initialized in uniform mode over `fmZero`,
hence Ready with `_numUniformQuads = 0`. -/
def rZero : PxOsdUtilRefiner :=
  (PxOsdUtilRefiner.init.Initialize true 0 true false fmZero).2

/-- Example far mesh with an empty patch array vector, so that the level
check `_level > parrays.size` fails during initialization. -/
def fmEmpty : FarMeshData :=
  { parrays := []
    patchParamTable := []
    faceVertices := fun _ => []
    firstVertexOffset := fun _ => 0
    numVertices := fun _ => 0 }

/-- Example driver builder: the result of initializing a fresh
default-constructed driver in adaptive mode over a given far mesh.  Note the
source's `Initialize` never stores its `adaptive` argument into the
`_adaptive` member, which keeps its constructor value `false`. -/
def adaptiveInitialized (mh : Nat) (fm : FarMeshData) : PxOsdUtilRefiner :=
  (PxOsdUtilRefiner.init.Initialize true mh true true fm).2

/-- Claim C1: the decoder's inverse-rotation step maps (u,v) to (u,v) for
rotation code 0, to (1−v, u) for code 1, to (1−u, 1−v) for code 2, and to
(v, 1−u) for code 3. -/
theorem claim_C1 (bf : BitField) (u v : ℚ) :
    (bf.GetRotation = 0 → _InverseRotate bf u v = (u, v)) ∧
    (bf.GetRotation = 1 → _InverseRotate bf u v = (1 - v, u)) ∧
    (bf.GetRotation = 2 → _InverseRotate bf u v = (1 - u, 1 - v)) ∧
    (bf.GetRotation = 3 → _InverseRotate bf u v = (v, 1 - u)) := by
  refine ⟨fun h => ?_, fun h => ?_, fun h => ?_, fun h => ?_⟩ <;>
    simp [_InverseRotate, h]

/-- Witness for C1 at rotation code 1 and the point (1/4, 1/8). -/
theorem claim_C1_witness :
    BitField.GetRotation ⟨1, 0, 0, 0⟩ = 1 ∧
    _InverseRotate ⟨1, 0, 0, 0⟩ (1/4) (1/8) = (1 - 1/8, 1/4) :=
  ⟨rfl, (claim_C1 ⟨1, 0, 0, 0⟩ (1/4) (1/8)).2.1 rfl⟩

/-- Claim C2: with rotation code 0, decoding yields the rectangle
u0 = subDomainU·f, v0 = subDomainV·f, u1 = (1+subDomainU)·f,
v1 = (1+subDomainV)·f with f = 1/2^depth; depth 0 (origin (0,0)) yields the
whole face {0,0,1,1}, and depth 1 with origin (1,0) yields
{0.5, 0.0, 1.0, 0.5}. -/
theorem claim_C2 (bf : BitField) (h : bf.GetRotation = 0) :
    decodeCorners bf =
      ((bf.GetU : ℚ) * bf.GetParamFraction,
       (bf.GetV : ℚ) * bf.GetParamFraction,
       (1 + (bf.GetU : ℚ)) * bf.GetParamFraction,
       (1 + (bf.GetV : ℚ)) * bf.GetParamFraction) ∧
    decodeCorners ⟨0, 0, 0, 0⟩ = (0, 0, 1, 1) ∧
    decodeCorners ⟨0, 1, 0, 1⟩ = (1/2, 0, 1, 1/2) := by
  refine ⟨?_, ?_, ?_⟩
  · simp [decodeCorners, _InverseRotate, _InverseNormalize, h]
    constructor <;> ring
  · norm_num [decodeCorners, _InverseRotate, _InverseNormalize,
      BitField.GetParamFraction, BitField.GetU, BitField.GetV,
      BitField.GetRotation]
  · norm_num [decodeCorners, _InverseRotate, _InverseNormalize,
      BitField.GetParamFraction, BitField.GetU, BitField.GetV,
      BitField.GetRotation]

/-- Witness for C2 at rotation 0, depth 1, origin (1,0). -/
theorem claim_C2_witness :
    BitField.GetRotation ⟨0, 1, 0, 1⟩ = 0 ∧
    decodeCorners ⟨0, 1, 0, 1⟩ = (1/2, 0, 1, 1/2) :=
  ⟨rfl, (claim_C2 ⟨0, 1, 0, 1⟩ rfl).2.2⟩

/-- Two equal rationals are within the 1e-6 round-trip tolerance. -/
theorem rt_abs_helper (a b : ℚ) (h : a = b) : |a - b| ≤ 1/1000000 := by
  rw [h, sub_self, abs_zero]
  norm_num

/-- Claim C3: for every rotation code in {0,1,2,3}, depth in {0,1,2,3} and
valid sub-domain origin, encoding the unit square's corners by the forward
scheme and decoding with the patch-parameter decoder reproduces the original
corner pair within tolerance 1e-6 (for codes 1 and 3 the decoder emits the
same two corners with their roles exchanged). -/
theorem claim_C3 (rot depth u v : Nat) (hrot : rot ≤ 3) (hdepth : depth ≤ 3)
    (hu : u < 2 ^ depth) (hv : v < 2 ^ depth) :
    (|(decodeCorners ⟨rot, u, v, depth⟩).1 -
        (encodeCorners ⟨rot, u, v, depth⟩).1| ≤ 1/1000000 ∧
     |(decodeCorners ⟨rot, u, v, depth⟩).2.1 -
        (encodeCorners ⟨rot, u, v, depth⟩).2.1| ≤ 1/1000000 ∧
     |(decodeCorners ⟨rot, u, v, depth⟩).2.2.1 -
        (encodeCorners ⟨rot, u, v, depth⟩).2.2.1| ≤ 1/1000000 ∧
     |(decodeCorners ⟨rot, u, v, depth⟩).2.2.2 -
        (encodeCorners ⟨rot, u, v, depth⟩).2.2.2| ≤ 1/1000000) ∨
    (|(decodeCorners ⟨rot, u, v, depth⟩).1 -
        (encodeCorners ⟨rot, u, v, depth⟩).2.2.1| ≤ 1/1000000 ∧
     |(decodeCorners ⟨rot, u, v, depth⟩).2.1 -
        (encodeCorners ⟨rot, u, v, depth⟩).2.2.2| ≤ 1/1000000 ∧
     |(decodeCorners ⟨rot, u, v, depth⟩).2.2.1 -
        (encodeCorners ⟨rot, u, v, depth⟩).1| ≤ 1/1000000 ∧
     |(decodeCorners ⟨rot, u, v, depth⟩).2.2.2 -
        (encodeCorners ⟨rot, u, v, depth⟩).2.1| ≤ 1/1000000) := by
  interval_cases rot <;>
    simp only [decodeCorners, encodeCorners, _InverseRotate, _InverseNormalize,
      forwardRotate, BitField.GetRotation, BitField.GetU, BitField.GetV,
      BitField.GetParamFraction]
  · exact Or.inl ⟨rt_abs_helper _ _ (by ring), rt_abs_helper _ _ (by ring),
      rt_abs_helper _ _ (by ring), rt_abs_helper _ _ (by ring)⟩
  · exact Or.inr ⟨rt_abs_helper _ _ (by ring), rt_abs_helper _ _ (by ring),
      rt_abs_helper _ _ (by ring), rt_abs_helper _ _ (by ring)⟩
  · exact Or.inl ⟨rt_abs_helper _ _ (by ring), rt_abs_helper _ _ (by ring),
      rt_abs_helper _ _ (by ring), rt_abs_helper _ _ (by ring)⟩
  · exact Or.inr ⟨rt_abs_helper _ _ (by ring), rt_abs_helper _ _ (by ring),
      rt_abs_helper _ _ (by ring), rt_abs_helper _ _ (by ring)⟩

/-- Witness for C3 at rotation 1, depth 1, origin (1,0). -/
theorem claim_C3_witness :
    (1 : Nat) ≤ 3 ∧ (1 : Nat) ≤ 3 ∧ 1 < 2 ^ 1 ∧ 0 < 2 ^ 1 ∧
    ((|(decodeCorners ⟨1, 1, 0, 1⟩).1 -
        (encodeCorners ⟨1, 1, 0, 1⟩).1| ≤ 1/1000000 ∧
      |(decodeCorners ⟨1, 1, 0, 1⟩).2.1 -
        (encodeCorners ⟨1, 1, 0, 1⟩).2.1| ≤ 1/1000000 ∧
      |(decodeCorners ⟨1, 1, 0, 1⟩).2.2.1 -
        (encodeCorners ⟨1, 1, 0, 1⟩).2.2.1| ≤ 1/1000000 ∧
      |(decodeCorners ⟨1, 1, 0, 1⟩).2.2.2 -
        (encodeCorners ⟨1, 1, 0, 1⟩).2.2.2| ≤ 1/1000000) ∨
     (|(decodeCorners ⟨1, 1, 0, 1⟩).1 -
        (encodeCorners ⟨1, 1, 0, 1⟩).2.2.1| ≤ 1/1000000 ∧
      |(decodeCorners ⟨1, 1, 0, 1⟩).2.1 -
        (encodeCorners ⟨1, 1, 0, 1⟩).2.2.2| ≤ 1/1000000 ∧
      |(decodeCorners ⟨1, 1, 0, 1⟩).2.2.1 -
        (encodeCorners ⟨1, 1, 0, 1⟩).1| ≤ 1/1000000 ∧
      |(decodeCorners ⟨1, 1, 0, 1⟩).2.2.2 -
        (encodeCorners ⟨1, 1, 0, 1⟩).2.1| ≤ 1/1000000)) :=
  ⟨by decide, by decide, by decide, by decide,
   claim_C3 1 1 1 0 (by decide) (by decide) (by decide) (by decide)⟩

/-- Claim C4: whenever an extraction call returns an error, the
caller-supplied output sequences are left untouched — no partial output is
produced. -/
theorem claim_C4 (r : PxOsdUtilRefiner) (quads : Option (List Int))
    (uvs : List ℚ) (ids : List Int) (e1 e2 : Option String) :
    ((r.GetRefinedQuads quads e1).1 = false →
      (r.GetRefinedQuads quads e1).2.1 = quads) ∧
    ((r.GetRefinedPtexUvs uvs ids e2).1 = false →
      (r.GetRefinedPtexUvs uvs ids e2).2.1 = uvs ∧
      (r.GetRefinedPtexUvs uvs ids e2).2.2.1 = ids) := by
  constructor
  · intro h
    unfold PxOsdUtilRefiner.GetRefinedQuads at h ⊢
    split_ifs at h ⊢ <;> simp_all
  · intro h
    unfold PxOsdUtilRefiner.GetRefinedPtexUvs at h ⊢
    split_ifs at h ⊢ <;> simp_all

/-- Witness for C4: on an unrefined driver both calls fail and leave the
outputs unchanged. -/
theorem claim_C4_witness :
    (PxOsdUtilRefiner.init.GetRefinedQuads (some [9]) none).1 = false ∧
    (PxOsdUtilRefiner.init.GetRefinedQuads (some [9]) none).2.1 = some [9] ∧
    (PxOsdUtilRefiner.init.GetRefinedPtexUvs [5] [6] none).1 = false ∧
    (PxOsdUtilRefiner.init.GetRefinedPtexUvs [5] [6] none).2.1 = [5] ∧
    (PxOsdUtilRefiner.init.GetRefinedPtexUvs [5] [6] none).2.2.1 = [6] :=
  ⟨rfl,
   (claim_C4 PxOsdUtilRefiner.init (some [9]) [5] [6] none none).1 rfl,
   rfl,
   ((claim_C4 PxOsdUtilRefiner.init (some [9]) [5] [6] none none).2 rfl).1,
   ((claim_C4 PxOsdUtilRefiner.init (some [9]) [5] [6] none none).2 rfl).2⟩

/-- Claim C5: whenever GetRefinedQuads succeeds its output has exactly
4 × quadCount entries, each the level's global face-vertex index minus
firstVertexOffset; and whenever GetRefinedPtexUvs succeeds its faceIndex
sequence has exactly quadCount entries. -/
theorem claim_C5 (r : PxOsdUtilRefiner) (l0 : List Int) (e1 : Option String)
    (h : (r.GetRefinedQuads (some l0) e1).1 = true) :
    (∃ out : List Int,
      (r.GetRefinedQuads (some l0) e1).2.1 = some out ∧
      out.length = 4 * r._numUniformQuads ∧
      ∀ i, i < 4 * r._numUniformQuads →
        out.getD i 0 =
          (((r._farMesh.getD default).faceVertices r._level).getD i 0 : Int) -
            (r._firstVertexOffset : Int)) ∧
    ∀ (uvs : List ℚ) (ids : List Int) (e2 : Option String),
      (r.GetRefinedPtexUvs uvs ids e2).1 = true →
      (r.GetRefinedPtexUvs uvs ids e2).2.2.1.length = r._numUniformQuads := by
  constructor
  · unfold PxOsdUtilRefiner.GetRefinedQuads at h ⊢
    split_ifs at h ⊢ with h1 h2 h3
    refine ⟨_, rfl, ?_, ?_⟩
    · rw [List.length_map, List.length_range, Nat.mul_comm]
    · intro i hi
      have hi' : i < r._numUniformQuads * 4 := by omega
      rw [List.getD_eq_getElem?_getD, List.getElem?_map,
        List.getElem?_range hi']
      rfl
  · intro uvs ids e2 h2
    unfold PxOsdUtilRefiner.GetRefinedPtexUvs at h2 ⊢
    split_ifs at h2 ⊢ <;>
      simp_all [List.length_map, List.length_range]

/-- Witness for C5 on the one-quad example refiner. -/
theorem claim_C5_witness :
    (rEx.GetRefinedQuads (some []) none).1 = true ∧
    ((∃ out : List Int,
      (rEx.GetRefinedQuads (some []) none).2.1 = some out ∧
      out.length = 4 * rEx._numUniformQuads ∧
      ∀ i, i < 4 * rEx._numUniformQuads →
        out.getD i 0 =
          (((rEx._farMesh.getD default).faceVertices rEx._level).getD i 0 : Int) -
            (rEx._firstVertexOffset : Int)) ∧
    ∀ (uvs : List ℚ) (ids : List Int) (e2 : Option String),
      (rEx.GetRefinedPtexUvs uvs ids e2).1 = true →
      (rEx.GetRefinedPtexUvs uvs ids e2).2.2.1.length = rEx._numUniformQuads) :=
  ⟨rfl, claim_C5 rEx [] none rfl⟩

/-- Counterexample to C9: a fresh driver successfully initialized in
adaptive mode over `fmEx` has `_adaptive = false` (the source's Initialize
never assigns the member, refiner.cpp lines 42-167), so GetRefinedQuads
fails silently — error string untouched, not the AdaptiveUnsupported
message — and GetRefinedPtexUvs succeeds instead of failing. -/
theorem claim_C9_counterexample :
    (PxOsdUtilRefiner.init.Initialize true 0 true true fmEx).1 = true ∧
    (adaptiveInitialized 0 fmEx)._adaptive = false ∧
    (adaptiveInitialized 0 fmEx)._isRefined = true ∧
    (adaptiveInitialized 0 fmEx).GetRefinedQuads (some [9]) (some "") =
      (false, some [9], some "") ∧
    ((adaptiveInitialized 0 fmEx).GetRefinedPtexUvs [] [] (some "")).1 =
      true :=
  ⟨rfl, rfl, rfl, rfl, rfl⟩

/-- Claim C9 as amended: Initialize never stores its adaptive argument into
the `_adaptive` member, so a driver initialized in adaptive mode keeps
`_adaptive = false` and `_numUniformQuads = 0`; GetRefinedQuads then fails
silently (false, outputs and error string untouched) and GetRefinedPtexUvs
succeeds with empty outputs — neither call reports AdaptiveUnsupported. -/
theorem claim_C9_amended (mh : Nat) (fm : FarMeshData)
    (h : ¬ PxOsdUtilRefiner.init._level > fm.parrays.length) :
    (adaptiveInitialized mh fm)._adaptive = false ∧
    (adaptiveInitialized mh fm)._isRefined = true ∧
    (adaptiveInitialized mh fm)._numUniformQuads = 0 ∧
    (∀ (l0 : List Int) (e : Option String),
      (adaptiveInitialized mh fm).GetRefinedQuads (some l0) e =
        (false, some l0, e)) ∧
    (∀ (uvs : List ℚ) (ids : List Int) (e : Option String),
      (adaptiveInitialized mh fm).GetRefinedPtexUvs uvs ids e =
        (true, [], [], e)) := by
  simp only [PxOsdUtilRefiner.init, gt_iff_lt, Nat.not_lt] at h
  have hr : adaptiveInitialized mh fm =
      { _adaptive := false
        _mesh := some mh
        _farMesh := some fm
        _patchParamTable := some fm.patchParamTable
        _firstVertexOffset := fm.firstVertexOffset 1
        _firstPatchOffset := (fm.parrays.getD 0 ⟨0, 0⟩).patchIndex
        _numRefinedVerts := fm.numVertices 1
        _numUniformQuads := 0
        _numPatches := (fm.parrays.getD 0 ⟨0, 0⟩).numPatches
        _level := 1
        _isRefined := true } := by
    unfold adaptiveInitialized PxOsdUtilRefiner.Initialize
    simp [PxOsdUtilRefiner.init, Nat.not_lt.mpr h]
  refine ⟨by rw [hr], by rw [hr], by rw [hr], ?_, ?_⟩
  · intro l0 e
    rw [hr]
    unfold PxOsdUtilRefiner.GetRefinedQuads
    simp
  · intro uvs ids e
    rw [hr]
    unfold PxOsdUtilRefiner.GetRefinedPtexUvs
    simp [Nat.not_lt.mpr h]

/-- Witness for the amended C9: adaptive initialization over the one-level
far mesh `fmEx`. -/
theorem claim_C9_amended_witness :
    ¬ PxOsdUtilRefiner.init._level > fmEx.parrays.length ∧
    ((adaptiveInitialized 0 fmEx)._adaptive = false ∧
     (adaptiveInitialized 0 fmEx)._isRefined = true ∧
     (adaptiveInitialized 0 fmEx)._numUniformQuads = 0 ∧
     (∀ (l0 : List Int) (e : Option String),
       (adaptiveInitialized 0 fmEx).GetRefinedQuads (some l0) e =
         (false, some l0, e)) ∧
     (∀ (uvs : List ℚ) (ids : List Int) (e : Option String),
       (adaptiveInitialized 0 fmEx).GetRefinedPtexUvs uvs ids e =
         (true, [], [], e))) :=
  ⟨by decide, claim_C9_amended 0 fmEx (by decide)⟩

/-- Claim C10: a null output-vector pointer makes GetRefinedQuads return
failure without setting any error message, even on a Ready uniform driver
with a positive quad count; the early return happens before any table is
dereferenced. -/
theorem claim_C10 (r : PxOsdUtilRefiner) (e : Option String)
    (h1 : r._isRefined = true) (h2 : r._adaptive = false)
    (h3 : 0 < r._numUniformQuads) :
    r.GetRefinedQuads none e = (false, none, e) := by
  unfold PxOsdUtilRefiner.GetRefinedQuads
  simp [h1, h2]

/-- Witness for C10 on the Ready one-quad example refiner. -/
theorem claim_C10_witness :
    rEx._isRefined = true ∧ rEx._adaptive = false ∧
    0 < rEx._numUniformQuads ∧
    rEx.GetRefinedQuads none (some "") = (false, none, some "") :=
  ⟨rfl, rfl, by decide, claim_C10 rEx (some "") rfl rfl (by decide)⟩

/-- Counterexample to C6: the single patch parameter of `rRot4` has the
out-of-range rotation code 4, yet GetRefinedPtexUvs succeeds and leaves the
caller's error string untouched — no InvalidEncoding error is reported or
propagated (the C++ rotation switch has no default case). -/
theorem claim_C6_counterexample :
    3 < ((rRot4._farMesh.getD default).patchParamTable.getD 0
          default).bitField.GetRotation ∧
    (rRot4.GetRefinedPtexUvs [] [] (some "")).1 = true ∧
    (rRot4.GetRefinedPtexUvs [] [] (some "")).2.2.2 = some "" :=
  ⟨by decide, rfl, rfl⟩

/-- Claim C6 as amended: a rotation code outside {0,1,2,3} is silently
treated as the identity by the inverse-rotation step, and GetRefinedPtexUvs
reports no error for it: on any Ready uniform driver the call succeeds. -/
theorem claim_C6_amended (bf : BitField) (u v : ℚ) (h : 3 < bf.GetRotation) :
    _InverseRotate bf u v = (u, v) ∧
    ∀ (r : PxOsdUtilRefiner) (uvs : List ℚ) (ids : List Int)
      (e : Option String),
      r._isRefined = true → r._adaptive = false →
      (r.GetRefinedPtexUvs uvs ids e).1 = true := by
  constructor
  · obtain ⟨k, hk⟩ : ∃ k, bf.GetRotation = k + 4 :=
      ⟨bf.GetRotation - 4, by omega⟩
    simp [_InverseRotate, hk]
  · intro r uvs ids e h1 h2
    unfold PxOsdUtilRefiner.GetRefinedPtexUvs
    simp [h1, h2]

/-- Witness for the amended C6 at rotation code 4 and the point (0,0). -/
theorem claim_C6_amended_witness :
    3 < BitField.GetRotation ⟨4, 0, 0, 0⟩ ∧
    (_InverseRotate ⟨4, 0, 0, 0⟩ 0 0 = (0, 0) ∧
     ∀ (r : PxOsdUtilRefiner) (uvs : List ℚ) (ids : List Int)
       (e : Option String),
       r._isRefined = true → r._adaptive = false →
       (r.GetRefinedPtexUvs uvs ids e).1 = true) :=
  ⟨by decide, claim_C6_amended ⟨4, 0, 0, 0⟩ 0 0 (by decide)⟩

/-- Counterexample to C7: `rZero` is Ready in uniform mode with quad count
0, yet GetRefinedPtexUvs succeeds (returning empty outputs and an untouched
error string) instead of failing with the NoQuads error — the source has no
quad-count check in GetRefinedPtexUvs. -/
theorem claim_C7_counterexample :
    rZero._isRefined = true ∧ rZero._adaptive = false ∧
    rZero._numUniformQuads = 0 ∧
    rZero.GetRefinedPtexUvs [] [] (some "") = (true, [], [], some "") :=
  ⟨rfl, rfl, rfl, rfl⟩

/-- Claim C7 as amended: GetRefinedPtexUvs shares only the NotRefined and
AdaptiveUnsupported checks with GetRefinedQuads; it performs no quad-count
check, so on a Ready uniform driver with quad count 0 it succeeds and
returns empty sequences. -/
theorem claim_C7_amended (r : PxOsdUtilRefiner) (uvs : List ℚ)
    (ids : List Int) (e : Option String) (h1 : r._isRefined = true)
    (h2 : r._adaptive = false) (h3 : r._numUniformQuads = 0) :
    (r.GetRefinedPtexUvs uvs ids e).1 = true ∧
    (r.GetRefinedPtexUvs uvs ids e).2.1 = [] ∧
    (r.GetRefinedPtexUvs uvs ids e).2.2.1 = [] := by
  unfold PxOsdUtilRefiner.GetRefinedPtexUvs
  simp [h1, h2, h3]

/-- Witness for the amended C7 on the zero-quad example refiner. -/
theorem claim_C7_amended_witness :
    rZero._isRefined = true ∧ rZero._adaptive = false ∧
    rZero._numUniformQuads = 0 ∧
    ((rZero.GetRefinedPtexUvs [] [] (some "x")).1 = true ∧
     (rZero.GetRefinedPtexUvs [] [] (some "x")).2.1 = [] ∧
     (rZero.GetRefinedPtexUvs [] [] (some "x")).2.2.1 = []) :=
  ⟨rfl, rfl, rfl, claim_C7_amended rZero [] [] (some "x") rfl rfl rfl⟩

/-- Counterexample to C8: initializing a fresh driver against a far mesh
with an empty patch-array vector fails the level check and returns false,
but the driver state has been mutated: it now holds the newly created far
mesh (and mesh) handle it did not hold before the call, although it is not
marked refined. -/
theorem claim_C8_counterexample :
    (PxOsdUtilRefiner.init.Initialize true 0 true false fmEmpty).1 = false ∧
    PxOsdUtilRefiner.init._farMesh.isSome = false ∧
    PxOsdUtilRefiner.init._mesh.isSome = false ∧
    ((PxOsdUtilRefiner.init.Initialize true 0 true false
        fmEmpty).2)._farMesh.isSome = true ∧
    ((PxOsdUtilRefiner.init.Initialize true 0 true false
        fmEmpty).2)._mesh.isSome = true ∧
    ((PxOsdUtilRefiner.init.Initialize true 0 true false
        fmEmpty).2)._isRefined = false :=
  ⟨rfl, rfl, rfl, rfl, rfl, rfl⟩

/-- Claim C8 as amended: when the target level exceeds the number of levels
in the patch table, Initialize returns failure without marking the driver
refined and without updating the cached offsets, counts, or parameter-table
reference — but the freshly built mesh and far-mesh handles have already
been stored into the driver before the check. -/
theorem claim_C8_amended (r : PxOsdUtilRefiner) (mh : Nat) (adaptive : Bool)
    (fm : FarMeshData) (h : r._level > fm.parrays.length) :
    (r.Initialize true mh true adaptive fm).1 = false ∧
    (r.Initialize true mh true adaptive fm).2._isRefined = r._isRefined ∧
    (r.Initialize true mh true adaptive fm).2._firstVertexOffset =
      r._firstVertexOffset ∧
    (r.Initialize true mh true adaptive fm).2._firstPatchOffset =
      r._firstPatchOffset ∧
    (r.Initialize true mh true adaptive fm).2._numRefinedVerts =
      r._numRefinedVerts ∧
    (r.Initialize true mh true adaptive fm).2._numUniformQuads =
      r._numUniformQuads ∧
    (r.Initialize true mh true adaptive fm).2._numPatches = r._numPatches ∧
    (r.Initialize true mh true adaptive fm).2._patchParamTable =
      r._patchParamTable ∧
    (r.Initialize true mh true adaptive fm).2._mesh = some mh ∧
    (r.Initialize true mh true adaptive fm).2._farMesh = some fm := by
  unfold PxOsdUtilRefiner.Initialize
  simp [h]

/-- Witness for the amended C8 on a fresh driver and the empty-level far
mesh. -/
theorem claim_C8_amended_witness :
    PxOsdUtilRefiner.init._level > fmEmpty.parrays.length ∧
    ((PxOsdUtilRefiner.init.Initialize true 0 true false fmEmpty).1 = false ∧
     (PxOsdUtilRefiner.init.Initialize true 0 true false
        fmEmpty).2._isRefined = PxOsdUtilRefiner.init._isRefined ∧
     (PxOsdUtilRefiner.init.Initialize true 0 true false
        fmEmpty).2._firstVertexOffset = PxOsdUtilRefiner.init._firstVertexOffset ∧
     (PxOsdUtilRefiner.init.Initialize true 0 true false
        fmEmpty).2._firstPatchOffset = PxOsdUtilRefiner.init._firstPatchOffset ∧
     (PxOsdUtilRefiner.init.Initialize true 0 true false
        fmEmpty).2._numRefinedVerts = PxOsdUtilRefiner.init._numRefinedVerts ∧
     (PxOsdUtilRefiner.init.Initialize true 0 true false
        fmEmpty).2._numUniformQuads = PxOsdUtilRefiner.init._numUniformQuads ∧
     (PxOsdUtilRefiner.init.Initialize true 0 true false
        fmEmpty).2._numPatches = PxOsdUtilRefiner.init._numPatches ∧
     (PxOsdUtilRefiner.init.Initialize true 0 true false
        fmEmpty).2._patchParamTable = PxOsdUtilRefiner.init._patchParamTable ∧
     (PxOsdUtilRefiner.init.Initialize true 0 true false
        fmEmpty).2._mesh = some 0 ∧
     (PxOsdUtilRefiner.init.Initialize true 0 true false
        fmEmpty).2._farMesh = some fmEmpty) :=
  ⟨by decide,
   claim_C8_amended PxOsdUtilRefiner.init 0 false fmEmpty (by decide)⟩
